import Mathlib

set_option autoImplicit false

/-!
Shallow embedding of `dbt/adapters/glue/gluedbapi/cursor.py` (classes
`GlueCursor` and `GlueDictCursor`), used to check the natural-language
specification of the module against its code.

Modelling conventions:
* Parsed JSON payloads and all Python values flowing through the cursor are
  represented by `JValue`; Python `None` is `JValue.null` (note that in
  Python a parsed JSON `null` and the attribute value `None` coincide).
* Python exceptions are represented by `PyErr`; a call that can raise is
  embedded as an `Except PyErr` result.  Calls that mutate the cursor return
  the post-call cursor alongside the result (Python mutations performed
  before a raise persist, and the embedding preserves them).
* `json.loads` is an external (stdlib) collaborator; it is passed to
  `GlueCursor.execute` as an oracle `parse : String → Option JValue`,
  `none` meaning the call raises `json.JSONDecodeError`.
* The remote Glue service response
  `{"Statement": {"State": ..., "Output": {"Status": ..., "Data":
  {"TextPlain": ...}, "ErrorName": ..., "ErrorValue": ...}}}` is flattened
  into `StatementResponse`: a missing `Statement`/`Output`/`Data` dict makes
  every inner `.get` return `None`, which the `Option` fields capture.
  Per the service contract, `State`/`Status`/`TextPlain`/`ErrorName`/
  `ErrorValue` are strings when present.
-/

/-- A parsed JSON value / generic Python value.  Numbers are modelled as
integers (the payload fields exercised here — `rowcount`, row data — are
integers or strings; no claim depends on float behaviour).  Objects are
association lists in insertion order; `json.loads` produces dicts with
distinct keys, so lookups take the first (only) match. -/
inductive JValue where
  | null : JValue
  | bool : Bool → JValue
  | num : Int → JValue
  | str : String → JValue
  | arr : List JValue → JValue
  | obj : List (String × JValue) → JValue
deriving Repr

mutual

/-- Decidable equality on `JValue` (the automatic derivation does not handle
the nesting through `List`). -/
def JValue.decEq : (a b : JValue) → Decidable (a = b)
  | .null, .null => isTrue rfl
  | .bool a, .bool b =>
    if h : a = b then isTrue (by rw [h]) else isFalse (fun heq => h (by injection heq))
  | .num a, .num b =>
    if h : a = b then isTrue (by rw [h]) else isFalse (fun heq => h (by injection heq))
  | .str a, .str b =>
    if h : a = b then isTrue (by rw [h]) else isFalse (fun heq => h (by injection heq))
  | .arr a, .arr b =>
    match JValue.decEqList a b with
    | isTrue h => isTrue (by rw [h])
    | isFalse h => isFalse (fun heq => h (by injection heq))
  | .obj a, .obj b =>
    match JValue.decEqObj a b with
    | isTrue h => isTrue (by rw [h])
    | isFalse h => isFalse (fun heq => h (by injection heq))
  | .null, .bool _ | .null, .num _ | .null, .str _ | .null, .arr _ | .null, .obj _
  | .bool _, .null | .bool _, .num _ | .bool _, .str _ | .bool _, .arr _ | .bool _, .obj _
  | .num _, .null | .num _, .bool _ | .num _, .str _ | .num _, .arr _ | .num _, .obj _
  | .str _, .null | .str _, .bool _ | .str _, .num _ | .str _, .arr _ | .str _, .obj _
  | .arr _, .null | .arr _, .bool _ | .arr _, .num _ | .arr _, .str _ | .arr _, .obj _
  | .obj _, .null | .obj _, .bool _ | .obj _, .num _ | .obj _, .str _ | .obj _, .arr _ =>
    isFalse (fun heq => by cases heq)

/-- Decidable equality on lists of `JValue`. -/
def JValue.decEqList : (a b : List JValue) → Decidable (a = b)
  | [], [] => isTrue rfl
  | [], _ :: _ => isFalse (fun heq => by cases heq)
  | _ :: _, [] => isFalse (fun heq => by cases heq)
  | x :: xs, y :: ys =>
    match JValue.decEq x y, JValue.decEqList xs ys with
    | isTrue h1, isTrue h2 => isTrue (by rw [h1, h2])
    | isFalse h1, _ => isFalse (fun heq => h1 (by injection heq))
    | isTrue _, isFalse h2 => isFalse (fun heq => h2 (by injection heq))

/-- Decidable equality on JSON object field lists. -/
def JValue.decEqObj : (a b : List (String × JValue)) → Decidable (a = b)
  | [], [] => isTrue rfl
  | [], _ :: _ => isFalse (fun heq => by cases heq)
  | _ :: _, [] => isFalse (fun heq => by cases heq)
  | (k1, v1) :: xs, (k2, v2) :: ys =>
    match String.decEq k1 k2, JValue.decEq v1 v2, JValue.decEqObj xs ys with
    | isTrue hk, isTrue hv, isTrue ht => isTrue (by rw [hk, hv, ht])
    | isFalse hk, _, _ => isFalse (fun heq => by cases heq; exact hk rfl)
    | isTrue _, isFalse hv, _ => isFalse (fun heq => by cases heq; exact hv rfl)
    | isTrue _, isTrue _, isFalse ht => isFalse (fun heq => by cases heq; exact ht rfl)

end

instance : DecidableEq JValue := JValue.decEq

deriving instance DecidableEq for Except

example : ((JValue.arr [.num 1] : JValue) = .arr [.num 1]) := by decide

example : ¬ ((JValue.arr [.num 1] : JValue) = .null) := by decide

/-- Python truthiness (`if x:`) of a `JValue`: `None`, `False`, `0`, `""`,
`[]` and `{}` are falsy. -/
def JValue.truthy : JValue → Bool
  | .null => false
  | .bool b => b
  | .num n => n != 0
  | .str s => s != ""
  | .arr xs => !xs.isEmpty
  | .obj fs => !fs.isEmpty

/-- The Python exceptions the cursor code can raise, by identity:
`Exception("CursorClosed")`, `Exception("CursorAlreadyClosed")`,
`dbt.exceptions.InternalException("CursorAlreadyRunning")`, a bare
`dbt.exceptions.InternalException`, `dbt.exceptions.DatabaseException(msg)`,
and the builtin `ValueError` / `TypeError` / `AttributeError` / `KeyError` /
`IndexError` / `json.JSONDecodeError` that stdlib operations raise. -/
inductive PyErr where
  | cursorClosed : PyErr
  | cursorAlreadyClosed : PyErr
  | cursorAlreadyRunning : PyErr
  | internalException : PyErr
  | databaseException : String → PyErr
  | valueError : PyErr
  | typeError : PyErr
  | attributeError : PyErr
  | keyError : PyErr
  | indexError : PyErr
  | jsonDecodeError : PyErr
deriving DecidableEq, Repr

/-! ### Python dictionary / sequence primitives on `JValue` -/

/-- Python `v.get(k)` (single-argument dict get): on a dict, the value for
`k`, or `None` when the key is absent (a stored JSON `null` and an absent
key are indistinguishable, as in Python); on any non-dict value, an
`AttributeError` (lists, strings, numbers and `None` have no `.get`). -/
def jGet (v : JValue) (k : String) : Except PyErr JValue :=
  match v with
  | .obj fs => .ok ((fs.lookup k).getD .null)
  | _ => .error .attributeError

/-- Python `v.get(k, d)` (dict get with an explicit default): unlike `jGet`
this distinguishes an absent key (gives `d`) from a stored `null`. -/
def jGetD (v : JValue) (k : String) (d : JValue) : Except PyErr JValue :=
  match v with
  | .obj fs => .ok ((fs.lookup k).getD d)
  | _ => .error .attributeError

/-- Python `v.get(key, None)` where `key` is an arbitrary value (the
column-name objects used as row keys): JSON object keys are strings, so a
non-string key never matches. -/
def jGetKeyD (v : JValue) (key : JValue) (d : JValue) : Except PyErr JValue :=
  match v with
  | .obj fs =>
    .ok (((fs.find? (fun p => JValue.str p.1 = key)).map (fun p => p.2)).getD d)
  | _ => .error .attributeError

/-- Python `v[k]` with a string subscript: dicts give the value or
`KeyError`; everything else raises `TypeError`. -/
def jSubscriptStr (v : JValue) (k : String) : Except PyErr JValue :=
  match v with
  | .obj fs =>
    match fs.lookup k with
    | some x => .ok x
    | none => .error .keyError
  | _ => .error .typeError

/-- Python `v[i]` with an integer subscript (`i ≥ 0`): lists index their
elements, strings their characters (as 1-character strings), both raising
`IndexError` when out of range; dicts raise `KeyError` (parsed JSON dicts
have only string keys); `None`, booleans and numbers raise `TypeError`. -/
def jIndex (v : JValue) (i : Nat) : Except PyErr JValue :=
  match v with
  | .arr xs =>
    match xs.get? i with
    | some x => .ok x
    | none => .error .indexError
  | .str s =>
    match s.data.get? i with
    | some ch => .ok (.str (String.mk [ch]))
    | none => .error .indexError
  | .obj _ => .error .keyError
  | _ => .error .typeError

/-- Python `for x in v`: lists iterate their elements, strings their
characters, dicts their keys (in insertion order); `None`, booleans and
numbers raise `TypeError`. -/
def jIter (v : JValue) : Except PyErr (List JValue) :=
  match v with
  | .arr xs => .ok xs
  | .str s => .ok (s.data.map (fun ch => JValue.str (String.mk [ch])))
  | .obj fs => .ok (fs.map (fun p => JValue.str p.1))
  | _ => .error .typeError

/-- A Python `for` loop that builds a list and propagates the first raised
exception (the effect of the repeated `record.append(...)` loops in the
source). -/
def mapME {α β : Type} (f : α → Except PyErr β) : List α → Except PyErr (List β)
  | [] => .ok []
  | x :: xs =>
    match f x with
    | .error e => .error e
    | .ok y =>
      match mapME f xs with
      | .error e => .error e
      | .ok ys => .ok (y :: ys)

/-! ### Python string primitives (on character lists) -/

/-- Index of the first occurrence of `needle` in `hay`, by characters
(the search underlying Python `str.find` / `str.index` / `in`). -/
def firstIndexOf (hay needle : List Char) : Option Nat :=
  if needle.isPrefixOf hay then some 0
  else
    match hay with
    | [] => none
    | _ :: rest => (firstIndexOf rest needle).map (fun i => i + 1)

/-- Python `sub in s`. -/
def containsSubstr (s sub : String) : Bool :=
  (firstIndexOf s.data sub.data).isSome

/-- Python `s.find(sub)`: the character index of the first occurrence, or
`-1` when there is none. -/
def pyFind (s sub : String) : Int :=
  match firstIndexOf s.data sub.data with
  | some i => (i : Int)
  | none => -1

/-- The whitespace characters stripped by Python `str.strip()` (the ASCII
ones; the payloads here are ASCII). -/
def pyIsSpace (c : Char) : Bool :=
  c = ' ' || c = '\t' || c = '\n' || c = '\r' || c = '\x0b' || c = '\x0c'

/-- Python `s.strip()`. -/
def pyStrip (s : String) : String :=
  String.mk (((s.data.dropWhile pyIsSpace).reverse.dropWhile pyIsSpace).reverse)

/-- Python `s.split(sep)` for the single character `'\n'`: splits at every
newline, keeping empty fragments, and always returns at least one
fragment. -/
def splitOnNl : List Char → List (List Char)
  | [] => [[]]
  | c :: rest =>
    match splitOnNl rest with
    | [] => if c = '\n' then [[], []] else [[c]]
    | h :: t => if c = '\n' then [] :: h :: t else (c :: h) :: t

/-- Fuel-indexed worker for `pyReplace` (the fuel is the haystack length,
which bounds the number of steps). -/
def replaceAux : Nat → List Char → List Char → List Char → List Char
  | 0, hay, _, _ => hay
  | _ + 1, [], _, _ => []
  | fuel + 1, c :: rest, needle, repl =>
    if needle.isPrefixOf (c :: rest) && !needle.isEmpty then
      repl ++ replaceAux fuel ((c :: rest).drop needle.length) needle repl
    else
      c :: replaceAux fuel rest needle repl

/-- Python `s.replace(needle, repl)`: replaces every non-overlapping
occurrence, left to right. -/
def pyReplace (s needle repl : String) : String :=
  String.mk (replaceAux s.data.length s.data needle.data repl.data)

/-! ### `textwrap.dedent` (CPython semantics)

`dedent` first empties every line consisting solely of spaces/tabs, then
computes the longest common leading space/tab prefix of the remaining
non-empty lines and removes it from every line that starts with it. -/

/-- Space or tab: the indentation characters `textwrap.dedent` considers. -/
def isIndentChar (c : Char) : Bool := c = ' ' || c = '\t'

/-- Longest common prefix of two character lists (how `textwrap.dedent`
merges the margins of two lines). -/
def commonPre : List Char → List Char → List Char
  | a :: la, b :: lb => if a = b then a :: commonPre la lb else []
  | _, _ => []

/-- Python `textwrap.dedent(s)`. -/
def pyDedent (s : String) : String :=
  let lines0 := splitOnNl s.data
  let lines1 := lines0.map (fun l => if !l.isEmpty && l.all isIndentChar then [] else l)
  let indents := (lines1.filter (fun l => !(l.dropWhile isIndentChar).isEmpty)).map
    (fun l => l.takeWhile isIndentChar)
  let margin :=
    match indents with
    | [] => []
    | i :: rest => rest.foldl commonPre i
  let lines2 :=
    if margin.isEmpty then lines1
    else lines1.map (fun l => if margin.isPrefixOf l then l.drop margin.length else l)
  String.mk (List.intercalate ['\n'] lines2)


/-! ### The remote statement payload and the cursor state -/

/-- The `Output` dict of a terminal statement payload, flattened: each field
is `none` when the corresponding key (or an enclosing dict) is missing.
`TextPlain` stands for `Output["Data"]["TextPlain"]`. -/
structure GlueOutput where
  Status : Option String := none
  TextPlain : Option String := none
  ErrorName : Option String := none
  ErrorValue : Option String := none
deriving Repr, DecidableEq

/-- The response of `GlueStatement.execute()` (the external collaborator),
flattened from `{"Statement": {"State": ..., "Output": {...}}}`. -/
structure StatementResponse where
  State : Option String := none
  Output : GlueOutput := {}
deriving Repr, DecidableEq

/-- The mutable state of a `GlueCursor` (and of a `GlueDictCursor`, which
adds no state of its own).  `response` is the parsed structured result of
the last successful execute (`JValue.null` both initially and after
`_pre`); `_it` is the forward-only fetch index (`None` or an integer in
Python).  `session_id` stands for `self.connection.session_id`, the only
datum read from the external connection that reaches an observable string;
`statement_id` is never assigned in the source (it stays `None`), so it is
not a field.  The `name` (uuid), `connection` and `statement` attributes
are external collaborators and are not modelled. -/
structure GlueCursor where
  _is_running : Bool := false
  _closed : Bool := false
  _it : Option Nat := none
  response : JValue := JValue.null
  sql : Option String := none
  code : Option String := none
  state : Option String := none
  session_id : String := ""
deriving Repr, DecidableEq

/-! ### `GlueCursor.execute` and its helpers -/

/-- `GlueCursor.remove_comments_header`: if the SQL text starts with the two
characters `/*`, find the first occurrence of the three characters `*/`
followed by a newline and drop everything up to and including it; the
underlying `str.index` raises `ValueError` when no such occurrence exists.
Text not starting with `/*` is returned unchanged. -/
def remove_comments_header (sql : String) : Except PyErr String :=
  if sql.data.take 2 = ['/', '*'] then
    match firstIndexOf sql.data ['*', '/', '\n'] with
    | some i => .ok (String.mk (sql.data.drop (i + 3)))
    | none => .error .valueError
  else .ok sql

/-- The fixed remote-side wrapper for plain SQL. -/
def wrapSql (s : String) : String :=
  "SqlWrapper2.execute('''" ++ s ++ "''')"

/-- The submission code built by `execute`: text containing the `--pyspark`
marker has every occurrence of the marker removed and is dedented and
submitted raw; anything else is wrapped with `SqlWrapper2.execute`. -/
def buildCode (s : String) : String :=
  if containsSubstr s "--pyspark" then
    pyDedent (pyReplace s "--pyspark" "")
  else wrapSql s

/-- Python `f"{x}"` for a string-or-`None` value. -/
def pyShowOpt : Option String → String
  | none => "None"
  | some s => s

/-- The message of the `DatabaseException` raised for a non-`"ok"` status on
`AVAILABLE` (the f-string of the source; `self.statement_id` is always
`None` because the source never assigns it). -/
def glueErrorMsg (status : Option String) (code : Option String)
    (errName : Option String) (errValue : String) : String :=
  "Glue returned `" ++ pyShowOpt status ++ "` for statement None for code " ++
    pyShowOpt code ++ ", " ++ pyShowOpt errName ++ ": " ++ errValue

/-- `GlueCursor.execute(sql)`:  rejects a closed or already-running cursor;
strips the comment header (which may raise `ValueError`); runs `_pre`
(clears the iterator, sets the running flag, clears the cached response);
builds the submission code; submits (the terminal payload `resp` of the
external `GlueStatement.execute()` is a parameter, as is the `json.loads`
oracle `parse`); then classifies the returned state:

* `AVAILABLE` with status `"ok"`: parse the stripped `TextPlain` (a missing
  `TextPlain` makes `None.strip()` raise `AttributeError`); on failure parse
  only the first newline-separated fragment; on failure again, the
  `logger.debug("Could not parse " + json.loads(chunks[0]), ex)` call
  re-runs `json.loads` on that same unparseable fragment, so the
  `JSONDecodeError` escapes `execute`;
* `AVAILABLE` with any other status: evaluate
  `output.get('ErrorValue').find("is not a view")` (AttributeError when
  `ErrorValue` is missing) — the integer is truthy unless it is exactly
  `0`, so the failure is logged and swallowed unless `ErrorValue` *starts
  with* `"is not a view"`, in which case a `DatabaseException` is raised;
* `ERROR`: set the state to `"error"` and raise `InternalException`;
* `CANCELLED` / `CANCELLING`: raise a `DatabaseException`;
* any other state: return the (cleared) response, leaving the running flag
  set (`_post` only runs on the paths above).

The returned cursor is the post-call state of `self`, whether or not an
exception is raised. -/
def GlueCursor.execute (parse : String → Option JValue) (c : GlueCursor)
    (resp : StatementResponse) (sqlIn : String) :
    GlueCursor × Except PyErr JValue :=
  if c._closed then (c, .error .cursorClosed)
  else if c._is_running then (c, .error .cursorAlreadyRunning)
  else
    match remove_comments_header sqlIn with
    | .error e => (c, .error e)
    | .ok s =>
      let c1 : GlueCursor :=
        { c with sql := some s, _it := none, _is_running := true,
                 response := JValue.null, code := some (buildCode s) }
      let st := resp.State.getD "WAITING"
      let c2 : GlueCursor := { c1 with state := some st }
      if st = "AVAILABLE" then
        let c3 : GlueCursor := { c2 with _it := none, _is_running := false }
        if resp.Output.Status = some "ok" then
          match resp.Output.TextPlain with
          | none => (c3, .error .attributeError)
          | some t =>
            let stripped := pyStrip t
            match parse stripped with
            | some v => ({ c3 with response := v }, .ok v)
            | none =>
              let chunk0 := String.mk ((splitOnNl stripped.data).headD [])
              match parse chunk0 with
              | some v => ({ c3 with response := v }, .ok v)
              | none => (c3, .error .jsonDecodeError)
        else
          match resp.Output.ErrorValue with
          | none => (c3, .error .attributeError)
          | some ev =>
            if pyFind ev "is not a view" ≠ 0 then (c3, .ok c3.response)
            else
              (c3, .error (.databaseException
                (glueErrorMsg resp.Output.Status c3.code resp.Output.ErrorName ev)))
      else if st = "ERROR" then
        ({ c2 with _it := none, _is_running := false, state := some "error" },
         .error .internalException)
      else if st = "CANCELLED" ∨ st = "CANCELLING" then
        ({ c2 with _it := none, _is_running := false },
         .error (.databaseException
           ("Statement " ++ c.session_id ++ ".None cancelled.")))
      else (c2, .ok c2.response)

/-! ### Result accessors and fetch protocols -/

/-- The body of the `columns` property for a (truthy) recorded response:
`[column.get("name") for column in self.response.get("description")]`.
A missing `description` key yields `None`, and iterating `None` raises
`TypeError`; a non-dict element raises `AttributeError` at `.get`. -/
def columnsOf (r : JValue) : Except PyErr (List JValue) :=
  match jGet r "description" with
  | .error e => .error e
  | .ok d =>
    match jIter d with
    | .error e => .error e
    | .ok cols => mapME (fun col => jGet col "name") cols

/-- `GlueCursor.columns` (property): `None` unless a truthy response is
recorded; otherwise the list of `description` entry names, raising as
`columnsOf` does. -/
def GlueCursor.columns (c : GlueCursor) : Except PyErr JValue :=
  if c.response.truthy then
    match columnsOf c.response with
    | .error e => .error e
    | .ok names => .ok (.arr names)
  else .ok .null

/-- One cell of a projected row: `item.get("data", {}).get(column, None)`. -/
def projCol (item colName : JValue) : Except PyErr JValue :=
  match jGetD item "data" (JValue.obj []) with
  | .error e => .error e
  | .ok d => jGetKeyD d colName JValue.null

/-- Project one result row `item` into positional form using the column
order of response `r` (the inner loop shared by `fetchone` and
`fetchall`). -/
def projectItem (r item : JValue) : Except PyErr (List JValue) :=
  match columnsOf r with
  | .error e => .error e
  | .ok cols => mapME (projCol item) cols

/-- The body of `fetchone`'s `try` block at index `i`:
`item = self.response.get("results")[self._it]`, then the projection loop.
A missing `results` key gives `None`, and `None[i]` raises `TypeError`;
an index past the end raises `IndexError`. -/
def tryFetchRecord (r : JValue) (i : Nat) : Except PyErr (List JValue) :=
  match jGet r "results" with
  | .error e => .error e
  | .ok results =>
    match jIndex results i with
    | .error e => .error e
    | .ok item => projectItem r item

/-- The fetch index used by `fetchone`: `if not self._it: self._it = 0`
treats both `None` and `0` as "start at 0" (Python truthiness of the
integer). -/
def itIndex : Option Nat → Nat
  | none => 0
  | some k => k

/-- `GlueCursor.fetchone()`: raises on a closed cursor; returns `None`
without touching the index when no truthy response is recorded; otherwise
reads row `itIndex self._it`, returning it positionally and advancing the
index — any exception inside the `try` block (exhaustion or a projection
error) is caught, the index is reset to `None`, and `None` is returned. -/
def GlueCursor.fetchone (c : GlueCursor) : GlueCursor × Except PyErr JValue :=
  if c._closed then (c, .error .cursorClosed)
  else if c.response.truthy then
    let i := itIndex c._it
    match tryFetchRecord c.response i with
    | .ok rec_ => ({ c with _it := some (i + 1) }, .ok (.arr rec_))
    | .error _ => ({ c with _it := none }, .ok .null)
  else (c, .ok .null)

/-- The per-item projection performed by `fetchall`'s outer loop:
`for column in self.columns: record.append(item.get("data", {}).get(column,
None))` — it goes through the `columns` property (re-evaluated per item). -/
def fetchallProject (c : GlueCursor) (item : JValue) : Except PyErr (List JValue) :=
  match GlueCursor.columns c with
  | .error e => .error e
  | .ok cv =>
    match jIter cv with
    | .error e => .error e
    | .ok cols => mapME (projCol item) cols

/-- `GlueCursor.fetchall()`: raises on a closed cursor; returns `None` when
no truthy response is recorded (the implicit Python return); otherwise
projects every entry of `self.response.get("results", [])` positionally, in
order, letting any projection error propagate. -/
def GlueCursor.fetchall (c : GlueCursor) : Except PyErr JValue :=
  if c._closed then .error .cursorClosed
  else if c.response.truthy then
    match jGetD c.response "results" (JValue.arr []) with
    | .error e => .error e
    | .ok rs =>
      match jIter rs with
      | .error e => .error e
      | .ok items =>
        match mapME (fetchallProject c) items with
        | .error e => .error e
        | .ok recs => .ok (.arr (recs.map JValue.arr))
  else .ok .null

/-- `GlueCursor.description()`: `None` unless a truthy response is recorded;
otherwise `[[c["name"], c["type"]] for c in self.response.get("description",
[])]` — note the `[]` default (an absent `description` yields an empty
list), and the *subscript* access (a present entry missing `"name"` or
`"type"` raises `KeyError`). -/
def GlueCursor.description (c : GlueCursor) : Except PyErr JValue :=
  if c.response.truthy then
    match jGetD c.response "description" (JValue.arr []) with
    | .error e => .error e
    | .ok d =>
      match jIter d with
      | .error e => .error e
      | .ok cols =>
        match mapME (fun col =>
          match jSubscriptStr col "name" with
          | .error e => .error e
          | .ok n =>
            match jSubscriptStr col "type" with
            | .error e => .error e
            | .ok t => .ok (JValue.arr [n, t])) cols with
        | .error e => .error e
        | .ok pairs => .ok (.arr pairs)
  else .ok .null

/-- `GlueCursor.rowcount` (property): `None` unless a truthy response is
recorded, else `self.response.get("rowcount")`. -/
def GlueCursor.rowcount (c : GlueCursor) : Except PyErr JValue :=
  if c.response.truthy then jGet c.response "rowcount" else .ok .null

/-- `GlueCursor.close()`: raises `CursorAlreadyClosed` on a closed cursor,
otherwise sets the closed flag.  Nothing in the class ever clears it. -/
def GlueCursor.close (c : GlueCursor) : GlueCursor × Except PyErr Unit :=
  if c._closed then (c, .error .cursorAlreadyClosed)
  else ({ c with _closed := true }, .ok ())

/-- The trace of `n` successive `fetchone` calls: the final cursor and the
list of the `n` results in call order. -/
def fetchTrace (c : GlueCursor) : Nat → GlueCursor × List (Except PyErr JValue)
  | 0 => (c, [])
  | Nat.succ n =>
    let p := GlueCursor.fetchone c
    let q := fetchTrace p.1 n
    (q.1, p.2 :: q.2)

/-! ### `GlueDictCursor` -/

/-- Python dict insertion `d[k] = v` for the row dicts built by
`GlueDictCursor` (arbitrary values as keys): overwrite in place if an equal
key exists, else append. -/
def pyDictInsert (d : List (JValue × JValue)) (k v : JValue) :
    List (JValue × JValue) :=
  if d.any (fun p => p.1 = k) then
    d.map (fun p => if p.1 = k then (p.1, v) else p)
  else d ++ [(k, v)]

/-- The re-keying loop shared by `GlueDictCursor.fetchone/fetchall`:
`for i, col in enumerate(self.columns): data[col] = item[i]`. -/
def buildDictRecord (c : GlueCursor) (item : JValue) :
    Except PyErr (List (JValue × JValue)) :=
  match GlueCursor.columns c with
  | .error e => .error e
  | .ok cv =>
    match jIter cv with
    | .error e => .error e
    | .ok cols =>
      match mapME (fun p =>
        match jIndex item p.1 with
        | .error e => .error e
        | .ok v => .ok (p.2, v)) cols.enum with
      | .error e => .error e
      | .ok pairs => .ok (pairs.foldl (fun d p => pyDictInsert d p.1 p.2) [])

/-- `GlueDictCursor.fetchone()`: the positional row from
`GlueCursor.fetchone`, re-keyed by column name; `if not item: return None`
maps both `None` and an empty row to `None` (Python truthiness). -/
def GlueDictCursor.fetchone (c : GlueCursor) :
    GlueCursor × Except PyErr (Option (List (JValue × JValue))) :=
  match GlueCursor.fetchone c with
  | (c1, .error e) => (c1, .error e)
  | (c1, .ok item) =>
    if item.truthy then
      match buildDictRecord c1 item with
      | .error e => (c1, .error e)
      | .ok d => (c1, .ok (some d))
    else (c1, .ok none)

/-- `GlueDictCursor.fetchall()`: iterates over the value returned by
`GlueCursor.fetchall` — when that value is `None` (no recorded result), the
`for array_item in array_records:` loop raises `TypeError` — and re-keys
each positional row by column name. -/
def GlueDictCursor.fetchall (c : GlueCursor) :
    Except PyErr (List (List (JValue × JValue))) :=
  match GlueCursor.fetchall c with
  | .error e => .error e
  | .ok arrRecords =>
    match jIter arrRecords with
    | .error e => .error e
    | .ok items => mapME (buildDictRecord c) items

/-! ### General lemmas -/

/-- A loop that returns a list succeeded on every element, elementwise. -/
theorem forall2_of_mapME {α β : Type} (f : α → Except PyErr β) :
    ∀ (xs : List α) (ys : List β), mapME f xs = .ok ys →
      List.Forall₂ (fun x y => f x = .ok y) xs ys := by
  intro xs
  induction xs with
  | nil =>
    intro ys h
    simp only [mapME] at h
    cases h
    exact List.Forall₂.nil
  | cons x xs ih =>
    intro ys h
    simp only [mapME] at h
    cases hfx : f x with
    | error e => rw [hfx] at h; cases h
    | ok y =>
      rw [hfx] at h
      cases hm : mapME f xs with
      | error e => rw [hm] at h; cases h
      | ok ys' =>
        rw [hm] at h
        cases h
        exact List.Forall₂.cons hfx (ih ys' hm)

/-- A successful loop preserves length. -/
theorem mapME_ok_length {α β : Type} (f : α → Except PyErr β)
    (xs : List α) (ys : List β) (h : mapME f xs = .ok ys) :
    ys.length = xs.length :=
  (forall2_of_mapME f xs ys h).length_eq.symm

/-- Loops over pointwise-equal bodies agree. -/
theorem mapME_congr {α β : Type} (f g : α → Except PyErr β) (xs : List α)
    (h : ∀ x ∈ xs, f x = g x) : mapME f xs = mapME g xs := by
  induction xs with
  | nil => rfl
  | cons x xs ih =>
    simp only [mapME]
    rw [h x (List.mem_cons_self x xs), ih (fun y hy => h y (List.mem_cons_of_mem x hy))]

/-- A loop with a failing element fails. -/
theorem mapME_error_of_mem {α β : Type} (f : α → Except PyErr β)
    (xs : List α) (x : α) (e : PyErr) (hx : x ∈ xs) (hf : f x = .error e) :
    ∃ e', mapME f xs = .error e' := by
  induction xs with
  | nil => cases hx
  | cons y ys ih =>
    simp only [mapME]
    cases hfy : f y with
    | error e' => exact ⟨e', rfl⟩
    | ok v =>
      rcases List.mem_cons.mp hx with hxy | hxm
      · subst hxy; rw [hf] at hfy; cases hfy
      · rcases ih hxm with ⟨e', he'⟩
        rw [he']
        exact ⟨e', rfl⟩

/-- A `.get` with a default that did not return the default also succeeds
without the default (the key is genuinely present). -/
theorem jGet_of_jGetD (r : JValue) (k : String) (d v : JValue)
    (h : jGetD r k d = .ok v) (hne : v ≠ d) : jGet r k = .ok v := by
  cases r <;> simp only [jGetD, jGet, Except.ok.injEq] at h ⊢ <;> try exact h
  case obj fs =>
    cases hl : List.lookup k fs with
    | none =>
      rw [hl] at h
      simp only [Option.getD] at h
      exact absurd h.symm hne
    | some w =>
      rw [hl] at h
      simp only [Option.getD] at h ⊢
      exact h

/-- With a truthy recorded response, the projection `fetchall` performs per
item coincides with `projectItem` on that response. -/
theorem fetchallProject_eq (c : GlueCursor) (r item : JValue)
    (hr : c.response = r) (ht : r.truthy = true) :
    fetchallProject c item = projectItem r item := by
  unfold fetchallProject projectItem GlueCursor.columns
  rw [hr, ht]
  simp only [if_true]
  cases columnsOf r <;> simp [jIter]

/-- On an open cursor with a truthy response, `fetchone` returns the
projection of the current row and advances the index when the `try` body
succeeds. -/
theorem fetchone_ok (c : GlueCursor) (r : JValue) (rec_ : List JValue)
    (hc : c._closed = false) (hr : c.response = r) (ht : r.truthy = true)
    (htry : tryFetchRecord r (itIndex c._it) = .ok rec_) :
    GlueCursor.fetchone c =
      ({ c with _it := some (itIndex c._it + 1) }, .ok (.arr rec_)) := by
  unfold GlueCursor.fetchone
  rw [hc, hr, ht]
  simp only [Bool.false_eq_true, if_false, if_true, htry]

/-- On an open cursor with a truthy response, `fetchone` catches any
exception of the `try` body, resets the index and returns `None`. -/
theorem fetchone_caught (c : GlueCursor) (r : JValue) (e : PyErr)
    (hc : c._closed = false) (hr : c.response = r) (ht : r.truthy = true)
    (htry : tryFetchRecord r (itIndex c._it) = .error e) :
    GlueCursor.fetchone c = ({ c with _it := none }, .ok JValue.null) := by
  unfold GlueCursor.fetchone
  rw [hc, hr, ht]
  simp only [Bool.false_eq_true, if_false, if_true, htry]

/-- The `try` body succeeds at index `i` exactly by indexing the results
list and projecting the row. -/
theorem tryFetchRecord_ok (r : JValue) (rows : List JValue) (item : JValue)
    (rec_ : List JValue) (i : Nat)
    (hres : jGet r "results" = .ok (.arr rows))
    (hrow : rows.get? i = some item)
    (hproj : projectItem r item = .ok rec_) :
    tryFetchRecord r i = .ok rec_ := by
  unfold tryFetchRecord
  rw [hres]
  simp only [jIndex, hrow, hproj]

/-- The `try` body raises `IndexError` past the end of the results list. -/
theorem tryFetchRecord_past_end (r : JValue) (rows : List JValue) (i : Nat)
    (hres : jGet r "results" = .ok (.arr rows))
    (hrow : rows.get? i = none) :
    tryFetchRecord r i = .error .indexError := by
  unfold tryFetchRecord
  rw [hres]
  simp only [jIndex, hrow]

/-- Running `fetchone` once per remaining row: starting at index `k` with
the rows from `k` on all projecting cleanly, the next `recs.length` calls
return exactly those projections in order and leave the index just past the
end. -/
theorem fetchTrace_run (r : JValue) (ht : r.truthy = true)
    (rowsAll : List JValue)
    (hres : jGet r "results" = .ok (.arr rowsAll))
    (rows : List JValue) (recs : List (List JValue))
    (hF : List.Forall₂
      (fun (item : JValue) (rec_ : List JValue) => projectItem r item = .ok rec_)
      rows recs) :
    ∀ (k : Nat) (c : GlueCursor),
      c._closed = false → c.response = r → c._it = some k →
      rowsAll.drop k = rows →
      fetchTrace c recs.length =
        ({ c with _it := some (k + recs.length) },
         recs.map (fun rec_ => Except.ok (JValue.arr rec_))) := by
  induction hF with
  | nil =>
    intro k c _ _ hit _
    show (c, ([] : List (Except PyErr JValue))) = _
    simp only [List.length_nil, Nat.add_zero, List.map_nil, ← hit]
  | @cons item rec_ rows' recs' hpr hrest ih =>
    intro k c hc hr hit hdrop
    have hget : rowsAll.get? k = some item := by
      have h0 := List.get?_drop rowsAll k 0
      rw [hdrop] at h0
      simpa using h0.symm
    have hdrop' : rowsAll.drop (k + 1) = rows' := by
      have hdd : rowsAll.drop (k + 1) = (rowsAll.drop k).drop 1 := by
        rw [List.drop_drop]
      rw [hdd, hdrop]
      rfl
    have hone := fetchone_ok c r rec_ hc hr ht
      (tryFetchRecord_ok r rowsAll item rec_ (itIndex c._it) hres
        (by rw [hit]; exact hget) hpr)
    rw [hit] at hone
    simp only [itIndex] at hone
    have hrec := ih (k + 1) { c with _it := some (k + 1) } hc hr rfl hdrop'
    show ((fetchTrace (GlueCursor.fetchone c).1 recs'.length).1,
          (GlueCursor.fetchone c).2 ::
            (fetchTrace (GlueCursor.fetchone c).1 recs'.length).2) = _
    rw [hone]
    simp only [hrec, List.map_cons, List.length_cons]
    have hk : k + 1 + recs'.length = k + (recs'.length + 1) := by omega
    rw [hk]

/-- C3 (amended): on an open cursor holding a truthy recorded result whose
rows all project cleanly and whose fetch index is fresh, the first N
`fetchone` calls (N = number of rows) return exactly the projected rows in
result order (an all-null row is just another projected row and is returned,
not treated as absence); the (N+1)-th call returns `None` and resets the
index; but because of that reset the (N+2)-th call starts over at row 0 and
returns the first row again — the cursor rewinds the exhausted result set
instead of continuing to report absence. -/
theorem C3_amended_fetchone_order_exhaust_rewind
    (c : GlueCursor) (r : JValue) (rows : List JValue)
    (recs : List (List JValue))
    (hc : c._closed = false) (hr : c.response = r) (hit : c._it = none)
    (ht : r.truthy = true)
    (hres : jGet r "results" = .ok (.arr rows))
    (hproj : mapME (projectItem r) rows = .ok recs)
    (hN : 0 < rows.length) :
    (fetchTrace c rows.length).2 =
        recs.map (fun rec_ => Except.ok (JValue.arr rec_))
    ∧ (fetchTrace c rows.length).1 = { c with _it := some rows.length }
    ∧ GlueCursor.fetchone { c with _it := some rows.length } =
        ({ c with _it := none }, .ok JValue.null)
    ∧ GlueCursor.fetchone { c with _it := none } =
        ({ c with _it := some 1 }, .ok (.arr (recs.headD []))) := by
  have hF := forall2_of_mapME (projectItem r) rows recs hproj
  cases rows with
  | nil => simp at hN
  | cons item0 rows' =>
    cases hF with
    | cons hpr hrest =>
      rename_i rec0 recs'
      have h1 := fetchone_ok c r rec0 hc hr ht
        (tryFetchRecord_ok r (item0 :: rows') item0 rec0 (itIndex c._it) hres
          (by rw [hit]; rfl) hpr)
      rw [hit] at h1
      simp only [itIndex, Nat.zero_add] at h1
      have hlen : recs'.length = rows'.length := hrest.length_eq.symm
      have htr := fetchTrace_run r ht (item0 :: rows') hres rows' recs' hrest 1
        { c with _it := some 1 } hc hr rfl rfl
      have hfix : (GlueCursor.fetchone c).1 = { c with _it := some 1 } := by rw [h1]
      have hsnd : (GlueCursor.fetchone c).2 = .ok (.arr rec0) := by rw [h1]
      have hlen1 : (item0 :: rows').length = recs'.length + 1 := by
        simp [hlen]
      refine ⟨?_, ?_, ?_, ?_⟩
      · rw [hlen1]
        show (GlueCursor.fetchone c).2 ::
            (fetchTrace (GlueCursor.fetchone c).1 recs'.length).2 = _
        rw [hfix, hsnd, htr]
        simp
      · rw [hlen1]
        show (fetchTrace (GlueCursor.fetchone c).1 recs'.length).1 = _
        rw [hfix, htr]
        simp [hlen, Nat.add_comm]
      · have hend := fetchone_caught { c with _it := some (rows'.length + 1) } r
          .indexError hc hr ht
          (tryFetchRecord_past_end r (item0 :: rows') (rows'.length + 1) hres
            (by
              apply List.get?_eq_none.mpr
              simp))
        exact hend
      · have hagain := fetchone_ok { c with _it := none } r rec0 hc hr ht
          (tryFetchRecord_ok r (item0 :: rows') item0 rec0
            (itIndex (none : Option Nat)) hres rfl hpr)
        simpa [itIndex] using hagain

/-! ### Concrete payloads used in witnesses and counterexamples -/

/-- A parse oracle that fails on every input (standing for `json.loads` on
texts it rejects; the scenarios using it only ever parse unparseable
text). -/
def parseNone : String → Option JValue := fun _ => none

/-- A well-formed one-row, one-column parsed payload:
`{"rowcount": 1, "description": [{"name": "a", "type": "int"}],
"results": [{"data": {"a": 1}}]}`. -/
def exPayload1 : JValue :=
  .obj [("rowcount", .num 1),
        ("description", .arr [.obj [("name", .str "a"), ("type", .str "int")]]),
        ("results", .arr [.obj [("data", .obj [("a", .num 1)])]])]

/-- An open, idle cursor holding `exPayload1` as its recorded result. -/
def exCursor1 : GlueCursor := { response := exPayload1 }

/-- C3 (counterexample): on the concrete one-row result `exCursor1`, the
first `fetchone` returns the row and the second returns `None`; but the
third call — on the same, unreplaced result — returns the first row again
instead of absence, refuting "after exhaustion further fetchone calls on
the same unreplaced result still return absence". -/
theorem C3_counterexample_third_fetchone_returns_row :
    ((GlueCursor.fetchone exCursor1).2 = .ok (.arr [.num 1]))
    ∧ ((GlueCursor.fetchone (GlueCursor.fetchone exCursor1).1).2 = .ok JValue.null)
    ∧ ((GlueCursor.fetchone
          (GlueCursor.fetchone (GlueCursor.fetchone exCursor1).1).1).2
        = .ok (.arr [.num 1]))
    ∧ ((GlueCursor.fetchone
          (GlueCursor.fetchone (GlueCursor.fetchone exCursor1).1).1).2
        ≠ .ok JValue.null) := by
  refine ⟨rfl, rfl, rfl, ?_⟩
  decide

/-- C3 (witness): the amended statement applied to the concrete one-row
result: one ordinary fetch, then absence with a reset index, then the
rewound first row. -/
theorem C3_amended_witness :
    (fetchTrace exCursor1 1).2 = [Except.ok (JValue.arr [.num 1])]
    ∧ GlueCursor.fetchone { exCursor1 with _it := some 1 } =
        ({ exCursor1 with _it := none }, .ok JValue.null)
    ∧ GlueCursor.fetchone { exCursor1 with _it := none } =
        ({ exCursor1 with _it := some 1 }, .ok (.arr [.num 1])) := by
  have h := C3_amended_fetchone_order_exhaust_rewind exCursor1 exPayload1
    [.obj [("data", .obj [("a", .num 1)])]] [[.num 1]]
    rfl rfl rfl rfl rfl rfl (by decide)
  exact ⟨h.1, h.2.2.1, h.2.2.2⟩

/-! ### C5 — lifecycle guards -/

/-- C5: the cursor's lifecycle guards hold: a second `execute` issued while
a statement is running raises `CursorAlreadyRunning`; `execute`, `fetchone`
and `fetchall` on a closed cursor raise `CursorClosed`; a second `close`
raises `CursorAlreadyClosed`; `close` always leaves the closed flag set and
no operation ever clears it, so a closed cursor stays closed forever. -/
theorem C5_lifecycle_guards (parse : String → Option JValue) (c : GlueCursor)
    (resp : StatementResponse) (sqlIn : String) :
    (c._closed = false → c._is_running = true →
      GlueCursor.execute parse c resp sqlIn = (c, .error .cursorAlreadyRunning))
    ∧ (c._closed = true →
        GlueCursor.execute parse c resp sqlIn = (c, .error .cursorClosed)
        ∧ GlueCursor.fetchone c = (c, .error .cursorClosed)
        ∧ GlueCursor.fetchall c = .error .cursorClosed)
    ∧ (c._closed = true → GlueCursor.close c = (c, .error .cursorAlreadyClosed))
    ∧ ((GlueCursor.close c).1._closed = true)
    ∧ (c._closed = true →
        (GlueCursor.execute parse c resp sqlIn).1._closed = true
        ∧ (GlueCursor.fetchone c).1._closed = true
        ∧ (GlueCursor.close c).1._closed = true
        ∧ (GlueDictCursor.fetchone c).1._closed = true) := by
  refine ⟨?_, ?_, ?_, ?_, ?_⟩
  · intro hc hrun
    unfold GlueCursor.execute
    rw [hc, hrun]
    simp
  · intro hc
    refine ⟨?_, ?_, ?_⟩
    · unfold GlueCursor.execute
      rw [hc]
      simp
    · unfold GlueCursor.fetchone
      rw [hc]
      simp
    · unfold GlueCursor.fetchall
      rw [hc]
      simp
  · intro hc
    unfold GlueCursor.close
    rw [hc]
    simp
  · unfold GlueCursor.close
    cases hcc : c._closed <;> simp [hcc]
  · intro hc
    have hone : GlueCursor.fetchone c = (c, .error .cursorClosed) := by
      unfold GlueCursor.fetchone
      rw [hc]
      simp
    refine ⟨?_, ?_, ?_, ?_⟩
    · unfold GlueCursor.execute
      rw [hc]
      simpa using hc
    · rw [hone]
      exact hc
    · unfold GlueCursor.close
      rw [hc]
      simpa using hc
    · unfold GlueDictCursor.fetchone
      rw [hone]
      exact hc

/-- A closed cursor. -/
def exClosedCursor : GlueCursor := { _closed := true }

/-- An open cursor with a statement in flight. -/
def exRunningCursor : GlueCursor := { _is_running := true }

/-- C5 (witness): the guards evaluated at concrete closed / running
cursors. -/
theorem C5_lifecycle_guards_witness :
    GlueCursor.execute parseNone exRunningCursor {} "select 1" =
        (exRunningCursor, .error .cursorAlreadyRunning)
    ∧ GlueCursor.execute parseNone exClosedCursor {} "select 1" =
        (exClosedCursor, .error .cursorClosed)
    ∧ GlueCursor.fetchone exClosedCursor = (exClosedCursor, .error .cursorClosed)
    ∧ GlueCursor.fetchall exClosedCursor = .error .cursorClosed
    ∧ GlueCursor.close exClosedCursor = (exClosedCursor, .error .cursorAlreadyClosed)
    ∧ (GlueCursor.close ({} : GlueCursor)).1._closed = true :=
  ⟨(C5_lifecycle_guards parseNone exRunningCursor {} "select 1").1 rfl rfl,
   ((C5_lifecycle_guards parseNone exClosedCursor {} "select 1").2.1 rfl).1,
   ((C5_lifecycle_guards parseNone exClosedCursor {} "select 1").2.1 rfl).2.1,
   ((C5_lifecycle_guards parseNone exClosedCursor {} "select 1").2.1 rfl).2.2,
   (C5_lifecycle_guards parseNone exClosedCursor {} "select 1").2.2.1 rfl,
   (C5_lifecycle_guards parseNone ({} : GlueCursor) {} "select 1").2.2.2.1⟩

/-! ### C4 — remote ERROR state -/

/-- The remote response for a terminal ERROR state. -/
def respError : StatementResponse := { State := some "ERROR" }

/-- C4 (amended): a terminal remote state of ERROR makes `execute` raise
`InternalException`, record the state `"error"` and clear the running flag
— but the cursor's previously cached result is not left unchanged: `_pre`
cleared it at the start of the call, so after the failed call the cached
response is absent. -/
theorem C4_amended_error_raises_and_clears_cache
    (parse : String → Option JValue) (c : GlueCursor)
    (resp : StatementResponse) (sqlIn s : String)
    (hc : c._closed = false) (hrun : c._is_running = false)
    (hh : remove_comments_header sqlIn = .ok s)
    (hst : resp.State = some "ERROR") :
    (GlueCursor.execute parse c resp sqlIn).2 = .error .internalException
    ∧ (GlueCursor.execute parse c resp sqlIn).1.response = JValue.null
    ∧ (GlueCursor.execute parse c resp sqlIn).1.state = some "error"
    ∧ (GlueCursor.execute parse c resp sqlIn).1._is_running = false := by
  unfold GlueCursor.execute
  rw [hc, hrun, hh, hst]
  simp

/-- C4 (counterexample): on a cursor with a cached one-row result, an ERROR
response makes `execute` raise `InternalException` — but the cached result
is cleared by the failed call, refuting "the cursor's previously cached
result is left unchanged". -/
theorem C4_counterexample_error_clears_cached_result :
    (GlueCursor.execute parseNone exCursor1 respError "select 1").2 =
        .error .internalException
    ∧ exCursor1.response = exPayload1
    ∧ (GlueCursor.execute parseNone exCursor1 respError "select 1").1.response =
        JValue.null
    ∧ (GlueCursor.execute parseNone exCursor1 respError "select 1").1.response ≠
        exCursor1.response := by
  refine ⟨rfl, rfl, rfl, ?_⟩
  decide

/-- C4 (witness): the amended statement at the concrete cached cursor. -/
theorem C4_amended_witness :
    (GlueCursor.execute parseNone exCursor1 respError "select 1").2 =
        .error .internalException
    ∧ (GlueCursor.execute parseNone exCursor1 respError "select 1").1.response =
        JValue.null := by
  have h := C4_amended_error_raises_and_clears_cache parseNone exCursor1 respError
    "select 1" "select 1" rfl rfl rfl rfl
  exact ⟨h.1, h.2.1⟩

/-! ### C1 — the "is not a view" suppression check -/

/-- An AVAILABLE / non-ok response whose error value does not contain
"is not a view". -/
def respPlainError : StatementResponse :=
  { State := some "AVAILABLE",
    Output := { Status := some "error", ErrorName := some "AnalysisException",
                ErrorValue := some "Table t not found" } }

/-- An AVAILABLE / non-ok response whose error value contains (indeed starts
with) "is not a view". -/
def respIsNotAView : StatementResponse :=
  { State := some "AVAILABLE",
    Output := { Status := some "error", ErrorName := some "AnalysisException",
                ErrorValue := some "is not a view: t" } }

/-- C1 (code-bug evaluation): `if output.get('ErrorValue').find("is not a
view"):` treats the `find` result as a boolean, which is falsy only for the
index `0`.  At an error value that does NOT contain "is not a view"
(`find` = `-1`, truthy) the failure is logged and `execute` completes
without raising, where the claim requires a classified database failure;
and at an error value that DOES contain the substring — at position `0` —
`execute` raises a `DatabaseException`, where the claim requires the
failure to be logged and swallowed.  Both directions of the claim fail. -/
theorem C1_code_bug_eval :
    containsSubstr "Table t not found" "is not a view" = false
    ∧ (GlueCursor.execute parseNone {} respPlainError "select 1").2 =
        .ok JValue.null
    ∧ containsSubstr "is not a view: t" "is not a view" = true
    ∧ (GlueCursor.execute parseNone {} respIsNotAView "select 1").2 =
        .error (.databaseException
          ("Glue returned `error` for statement None for code " ++
           "SqlWrapper2.execute('''select 1'''), AnalysisException: " ++
           "is not a view: t")) := by
  refine ⟨?_, rfl, ?_, rfl⟩ <;> decide

/-! ### C2 — unparseable "ok" payload -/

/-- An AVAILABLE / "ok" response whose textual payload is unparseable (a
single fragment, so the whole text and its first newline-separated fragment
coincide). -/
def respOkUnparseable : StatementResponse :=
  { State := some "AVAILABLE",
    Output := { Status := some "ok", TextPlain := some "boom" } }

/-- C2 (code-bug evaluation): when the payload fails to parse both as a
whole and as its first newline-separated fragment, `execute` does NOT
complete normally: the except-handler's
`logger.debug("Could not parse " + json.loads(chunks[0]), ex)` re-runs
`json.loads` on the same unparseable fragment, and that `JSONDecodeError`
escapes `execute`.  The first two conjuncts exhibit the parse failures of
the whole stripped text and of its first fragment; the third shows the
raise. -/
theorem C2_code_bug_eval :
    parseNone (pyStrip "boom") = none
    ∧ parseNone (String.mk ((splitOnNl (pyStrip "boom").data).headD [])) = none
    ∧ (GlueCursor.execute parseNone {} respOkUnparseable "select 1").2 =
        .error .jsonDecodeError :=
  ⟨rfl, rfl, rfl⟩

/-! ### C7 — fetches with no recorded result -/

/-- C7 (code-bug evaluation): on a fresh open cursor with no recorded
result, `GlueCursor.fetchone`, `GlueCursor.fetchall` and
`GlueDictCursor.fetchone` all return absence without raising — but
`GlueDictCursor.fetchall` raises `TypeError`, because it iterates the
`None` that `GlueCursor.fetchall` returned.  This refutes "every fetch
operation (fetchone and fetchall, on both Cursor and DictCursor) returns an
empty or absent result and never raises". -/
theorem C7_code_bug_eval :
    GlueCursor.fetchone ({} : GlueCursor) = ({}, .ok JValue.null)
    ∧ GlueCursor.fetchall ({} : GlueCursor) = .ok JValue.null
    ∧ GlueDictCursor.fetchone ({} : GlueCursor) = ({}, .ok none)
    ∧ GlueDictCursor.fetchall ({} : GlueCursor) = .error .typeError :=
  ⟨rfl, rfl, rfl, rfl⟩

/-! ### C6 — rowcount / columns / fetchall coherence -/

/-- A payload whose declared "rowcount" (2) disagrees with its single
actual result row. -/
def exPayloadMiscount : JValue :=
  .obj [("rowcount", .num 2),
        ("description", .arr [.obj [("name", .str "a"), ("type", .str "int")]]),
        ("results", .arr [.obj [("data", .obj [("a", .num 1)])]])]

/-- An open cursor holding `exPayloadMiscount`. -/
def exCursorMiscount : GlueCursor := { response := exPayloadMiscount }

/-- C6 (counterexample): `rowcount` merely returns the payload's declared
"rowcount" field.  On a recorded payload declaring `"rowcount": 2` but
holding one actual result row, `rowcount` is 2 while the parsed payload has
1 row and `fetchall` returns 1 record — refuting both "rowcount equals the
number of rows in the parsed payload" and "fetchall length equals
rowcount". -/
theorem C6_counterexample_rowcount_is_declared_field :
    GlueCursor.rowcount exCursorMiscount = .ok (.num 2)
    ∧ GlueCursor.fetchall exCursorMiscount = .ok (.arr [.arr [.num 1]])
    ∧ ([JValue.arr [.num 1]] : List JValue).length = 1
    ∧ (2 : Int) ≠ 1 := by
  refine ⟨rfl, rfl, rfl, ?_⟩
  decide

/-- C6 (amended): after a successful execute records a truthy payload,
`rowcount` returns the payload's declared "rowcount" field; `columns`
equals the description names in order; and `fetchall` returns one
positional record per entry of the payload's "results" list, so its length
equals the results list's length — which coincides with `rowcount` only
when the payload's declared count matches its actual rows. -/
theorem C6_amended_result_accessors
    (c : GlueCursor) (r : JValue) (rcv : JValue) (rows : List JValue)
    (descs names : List JValue) (recs : List (List JValue))
    (hc : c._closed = false) (hr : c.response = r) (ht : r.truthy = true)
    (hrc : jGet r "rowcount" = .ok rcv)
    (hrs : jGetD r "results" (JValue.arr []) = .ok (.arr rows))
    (hd : jGet r "description" = .ok (.arr descs))
    (hn : mapME (fun col => jGet col "name") descs = .ok names)
    (hproj : mapME (projectItem r) rows = .ok recs) :
    GlueCursor.rowcount c = .ok rcv
    ∧ GlueCursor.columns c = .ok (.arr names)
    ∧ GlueCursor.fetchall c = .ok (.arr (recs.map JValue.arr))
    ∧ recs.length = rows.length := by
  have hfp : mapME (fetchallProject c) rows = mapME (projectItem r) rows :=
    mapME_congr _ _ rows (fun item _ => fetchallProject_eq c r item hr ht)
  refine ⟨?_, ?_, ?_, mapME_ok_length _ rows recs hproj⟩
  · unfold GlueCursor.rowcount
    rw [hr, ht]
    simpa using hrc
  · unfold GlueCursor.columns columnsOf
    rw [hr, ht, hd]
    simp only [jIter, if_true]
    rw [hn]
  · unfold GlueCursor.fetchall
    rw [hc, hr, ht, hrs]
    simp only [jIter, if_true, Bool.false_eq_true, if_false]
    rw [hfp, hproj]

/-- C6 (witness): the amended accessors at the concrete coherent one-row
payload. -/
theorem C6_amended_witness :
    GlueCursor.rowcount exCursor1 = .ok (.num 1)
    ∧ GlueCursor.columns exCursor1 = .ok (.arr [.str "a"])
    ∧ GlueCursor.fetchall exCursor1 = .ok (.arr [.arr [.num 1]]) := by
  have h := C6_amended_result_accessors exCursor1 exPayload1 (.num 1)
    [.obj [("data", .obj [("a", .num 1)])]]
    [.obj [("name", .str "a"), ("type", .str "int")]] [.str "a"]
    [[.num 1]] rfl rfl rfl rfl rfl rfl rfl rfl
  exact ⟨h.1, h.2.1, h.2.2.1⟩

/-! ### C8 — header stripping and submission code -/

/-- C8 (counterexample): the string "/\x2a c \x2a/ select 1" begins with a
comment block, but its terminator is not followed by a newline, so
`str.index("\x2a/\n")` finds nothing and `remove_comments_header` — and
hence `execute` — raises `ValueError`, refuting "with no exception raised
in either case". -/
theorem C8_counterexample_header_without_newline_raises :
    remove_comments_header "/* c */ select 1" = .error .valueError
    ∧ GlueCursor.execute parseNone {} {} "/* c */ select 1" =
        ({}, .error .valueError) :=
  ⟨rfl, rfl⟩

/-- C8 (amended): header handling and submission-code construction.  A SQL
string not starting with the two characters of a comment opener is left
unchanged; one starting with the opener has everything up to and including
the first comment terminator followed by a newline removed (the dropped
prefix is exactly the first `i + 3` characters), but when no
terminator-plus-newline occurs anywhere in the string, `str.index` raises
`ValueError` and `execute` propagates it.  After header stripping, text
containing the `--pyspark` marker is submitted raw — every marker occurrence
removed, then dedented, never wrapped — and any other text is submitted as
exactly `SqlWrapper2.execute('''<sql>''')`. -/
theorem C8_amended_header_and_code
    (parse : String → Option JValue) (c : GlueCursor)
    (resp : StatementResponse) (sqlIn s : String) (i : Nat)
    (hc : c._closed = false) (hrun : c._is_running = false) :
    (sqlIn.data.take 2 ≠ ['/', '*'] → remove_comments_header sqlIn = .ok sqlIn)
    ∧ (sqlIn.data.take 2 = ['/', '*'] →
        firstIndexOf sqlIn.data ['*', '/', '\n'] = some i →
        remove_comments_header sqlIn = .ok (String.mk (sqlIn.data.drop (i + 3)))
        ∧ sqlIn.data.take (i + 3) ++ sqlIn.data.drop (i + 3) = sqlIn.data)
    ∧ (sqlIn.data.take 2 = ['/', '*'] →
        firstIndexOf sqlIn.data ['*', '/', '\n'] = none →
        remove_comments_header sqlIn = .error .valueError
        ∧ (GlueCursor.execute parse c resp sqlIn).2 = .error .valueError)
    ∧ (remove_comments_header sqlIn = .ok s →
        containsSubstr s "--pyspark" = true →
        (GlueCursor.execute parse c resp sqlIn).1.code =
          some (pyDedent (pyReplace s "--pyspark" "")))
    ∧ (remove_comments_header sqlIn = .ok s →
        containsSubstr s "--pyspark" = false →
        (GlueCursor.execute parse c resp sqlIn).1.code = some (wrapSql s)) := by
  refine ⟨?_, ?_, ?_, ?_, ?_⟩
  · intro hpre
    unfold remove_comments_header
    rw [if_neg hpre]
  · intro hpre hidx
    unfold remove_comments_header
    rw [if_pos hpre, hidx]
    exact ⟨rfl, List.take_append_drop (i + 3) sqlIn.data⟩
  · intro hpre hidx
    have hrem : remove_comments_header sqlIn = .error .valueError := by
      unfold remove_comments_header
      rw [if_pos hpre, hidx]
    refine ⟨hrem, ?_⟩
    unfold GlueCursor.execute
    rw [hc, hrun, hrem]
    simp
  · intro hh hmk
    unfold GlueCursor.execute
    rw [hc, hrun, hh]
    simp only [Bool.false_eq_true, if_false]
    have hb : buildCode s = pyDedent (pyReplace s "--pyspark" "") := by
      unfold buildCode
      rw [hmk]
      simp
    rw [← hb]
    repeat' first
      | rfl
      | split
  · intro hh hmk
    unfold GlueCursor.execute
    rw [hc, hrun, hh]
    simp only [Bool.false_eq_true, if_false]
    have hb : buildCode s = wrapSql s := by
      unfold buildCode
      rw [hmk]
      simp
    rw [← hb]
    repeat' first
      | rfl
      | split

/-- C8 (witness): the amended header/wrapping behaviour at concrete SQL
strings — unprefixed SQL unchanged, a newline-terminated header removed, a
non-newline-terminated header raising, a marked script dedented and
unwrapped, plain SQL wrapped. -/
theorem C8_amended_witness :
    remove_comments_header "select 1" = .ok "select 1"
    ∧ remove_comments_header "/* hdr */\nselect 1" = .ok "select 1"
    ∧ remove_comments_header "/* c */ select 1" = .error .valueError
    ∧ (GlueCursor.execute parseNone {} {} "--pyspark\nprint(1)").1.code =
        some (pyDedent (pyReplace "--pyspark\nprint(1)" "--pyspark" ""))
    ∧ (GlueCursor.execute parseNone {} {} "select 1").1.code =
        some (wrapSql "select 1") := by
  refine ⟨?_, ?_, ?_, ?_, ?_⟩
  · exact (C8_amended_header_and_code parseNone {} {} "select 1" "select 1" 0
      rfl rfl).1 (by decide)
  · exact ((C8_amended_header_and_code parseNone {} {} "/* hdr */\nselect 1"
      "select 1" 7 rfl rfl).2.1 (by decide) (by decide)).1
  · exact ((C8_amended_header_and_code parseNone {} {} "/* c */ select 1"
      "" 0 rfl rfl).2.2.1 (by decide) (by decide)).1
  · exact (C8_amended_header_and_code parseNone {} {}
      "--pyspark\nprint(1)" "--pyspark\nprint(1)" 0 rfl rfl).2.2.2.1 rfl
      (by decide)
  · exact (C8_amended_header_and_code parseNone {} {} "select 1" "select 1" 0
      rfl rfl).2.2.2.2 rfl (by decide)

/-! ### C9 — payload without a description list -/

/-- A truthy recorded payload with no "description" key (and an empty
results list). -/
def exPayloadNoDesc : JValue := .obj [("results", .arr [])]

/-- An open cursor holding `exPayloadNoDesc`. -/
def exCursorNoDesc : GlueCursor := { response := exPayloadNoDesc }

/-- C9 (counterexample): on a recorded payload with no description list the
`columns` accessor does not "return nothing rather than raising": it raises
`TypeError` (iterating the `None` that `.get("description")` returned), and
`description()` returns an empty list rather than an absent value. -/
theorem C9_counterexample_columns_raises :
    GlueCursor.columns exCursorNoDesc = .error .typeError
    ∧ GlueCursor.description exCursorNoDesc = .ok (.arr []) :=
  ⟨rfl, rfl⟩

/-- C9 (amended): for every cursor holding a truthy recorded payload whose
description key is absent, `description()` returns an empty list (its
`.get("description", [])` defaults the missing list), while the `columns`
accessor raises `TypeError` (its defaultless `.get("description")` yields
`None`, which the list comprehension then iterates). -/
theorem C9_amended_missing_description
    (c : GlueCursor) (fs : List (String × JValue))
    (hr : c.response = .obj fs) (ht : (JValue.obj fs).truthy = true)
    (hnd : fs.lookup "description" = none) :
    GlueCursor.columns c = .error .typeError
    ∧ GlueCursor.description c = .ok (.arr []) := by
  constructor
  · unfold GlueCursor.columns columnsOf
    rw [hr, ht]
    simp [jGet, hnd, jIter]
  · unfold GlueCursor.description
    rw [hr, ht]
    simp [jGetD, hnd, jIter, mapME]

/-- C9 (witness): the amended accessors at the concrete payload without a
description list. -/
theorem C9_amended_witness :
    GlueCursor.columns exCursorNoDesc = .error .typeError
    ∧ GlueCursor.description exCursorNoDesc = .ok (.arr []) :=
  C9_amended_missing_description exCursorNoDesc [("results", .arr [])] rfl rfl rfl

/-! ### C10 — projection errors: fetchone vs fetchall -/

/-- C10: on an open cursor with a truthy recorded result, an error raised
while projecting the current row in `fetchone` is caught — `fetchone`
returns absence and resets the forward-only index, indistinguishable from
exhaustion — whereas `fetchall` propagates an error to the caller.  The
first conjunct covers a non-indexable "results" field (`None`, a boolean or
a number); the second covers a projection error on the current row of a
list-shaped results field (for example a missing description list or a
non-dict row). -/
theorem C10_fetchone_swallows_fetchall_propagates
    (c : GlueCursor) (r : JValue)
    (hc : c._closed = false) (hr : c.response = r) (ht : r.truthy = true) :
    (∀ rv : JValue,
      jGetD r "results" (JValue.arr []) = .ok rv →
      (rv = .null ∨ (∃ b, rv = .bool b) ∨ (∃ n, rv = .num n)) →
      GlueCursor.fetchone c = ({ c with _it := none }, .ok JValue.null)
      ∧ ∃ e', GlueCursor.fetchall c = .error e')
    ∧ (∀ (rows : List JValue) (item : JValue) (e : PyErr),
      jGetD r "results" (JValue.arr []) = .ok (.arr rows) →
      rows.get? (itIndex c._it) = some item →
      projectItem r item = .error e →
      GlueCursor.fetchone c = ({ c with _it := none }, .ok JValue.null)
      ∧ ∃ e', GlueCursor.fetchall c = .error e') := by
  constructor
  · intro rv hrs hshape
    have hne : rv ≠ JValue.arr [] := by
      rcases hshape with h | ⟨b, h⟩ | ⟨n, h⟩ <;> subst h <;> intro hx <;> cases hx
    have hg : jGet r "results" = .ok rv := jGet_of_jGetD r "results" _ rv hrs hne
    have hidx : jIndex rv (itIndex c._it) = .error .typeError := by
      rcases hshape with h | ⟨b, h⟩ | ⟨n, h⟩ <;> subst h <;> rfl
    have hiter : jIter rv = .error .typeError := by
      rcases hshape with h | ⟨b, h⟩ | ⟨n, h⟩ <;> subst h <;> rfl
    constructor
    · refine fetchone_caught c r .typeError hc hr ht ?_
      unfold tryFetchRecord
      rw [hg]
      simp only [hidx]
    · refine ⟨.typeError, ?_⟩
      unfold GlueCursor.fetchall
      rw [hc, hr, ht, hrs]
      simp only [Bool.false_eq_true, if_false, if_true, hiter]
  · intro rows item e hrs hrow hproj
    have hmem : item ∈ rows := List.get?_mem hrow
    constructor
    · refine fetchone_caught c r e hc hr ht ?_
      have hne : JValue.arr rows ≠ JValue.arr [] := by
        intro hx
        injection hx with hx'
        rw [hx'] at hrow
        cases hrow
      have hg : jGet r "results" = .ok (.arr rows) :=
        jGet_of_jGetD r "results" _ _ hrs hne
      unfold tryFetchRecord
      rw [hg]
      simp only [jIndex, hrow, hproj]
    · have hfe : fetchallProject c item = .error e := by
        rw [fetchallProject_eq c r item hr ht]
        exact hproj
      rcases mapME_error_of_mem (fetchallProject c) rows item e hmem hfe with ⟨e', he'⟩
      refine ⟨e', ?_⟩
      unfold GlueCursor.fetchall
      rw [hc, hr, ht, hrs]
      simp only [Bool.false_eq_true, if_false, if_true, jIter, he']

/-- A truthy payload with one result row but no description list: the row
projection raises inside `fetchone` and inside `fetchall`. -/
def exPayloadNoDescRow : JValue :=
  .obj [("results", .arr [.obj [("data", .obj [])]])]

/-- An open cursor holding `exPayloadNoDescRow`. -/
def exCursorNoDescRow : GlueCursor := { response := exPayloadNoDescRow }

/-- C10 (witness): at the concrete row whose projection fails for lack of a
description list, `fetchone` yields absence with a reset index while
`fetchall` raises. -/
theorem C10_witness :
    GlueCursor.fetchone exCursorNoDescRow =
        ({ exCursorNoDescRow with _it := none }, .ok JValue.null)
    ∧ ∃ e', GlueCursor.fetchall exCursorNoDescRow = .error e' :=
  (C10_fetchone_swallows_fetchall_propagates exCursorNoDescRow exPayloadNoDescRow
    rfl rfl rfl).2 [.obj [("data", .obj [])]] (.obj [("data", .obj [])])
    .typeError rfl rfl rfl
